import Mathlib

/-!
Shallow embedding of the multi-venue trading adapter layer
(src/lib/trading-api.ts, src/lib/crypto-api.ts, and the Rithmic adapter),
with theorems checking the natural-language specification's claims about
connection lifecycle, reconnection backoff, normalization, auth headers,
and REST error handling.

Modelling conventions:
* Class instance fields become a `State` structure; each method becomes a
  pure function from (arguments and) state to (state and) results.
* JSON values parsed from wire messages are modelled by an inductive
  `Json` type with JS-style field/index access returning `Option`.
* JS numbers are modelled as `Rat`; `Number.parseFloat` on a field that is
  already a string/number is absorbed into the numeric field value, since
  no claim proved here depends on float rounding.
* Ambient effects are explicit inputs: the HTTP response of a REST call is
  an argument, the wall clock (`Date.now()`) is an argument, and
  `new Date(s).getTime()` is an arbitrary function argument `dateMs`.
* Side effects (closing/opening sockets, sending frames) are returned as
  explicit action traces so ordering claims can be stated.
-/

/-- Readiness of a WebSocket handle (JS readyState). -/
inductive SockState where
  | connecting
  | open
  | closing
  | closed
deriving DecidableEq, Repr

/-- A WebSocket handle: the URL it was opened on and its readiness. -/
structure Socket where
  url : String
  readyState : SockState
deriving DecidableEq, Repr

/-- JS `socket.close()`: the handle transitions towards the closed state. -/
def Socket.closeSock (s : Socket) : Socket :=
  { s with readyState := SockState.closed }

/-- Parsed JSON value, as delivered to `onmessage` handlers after
`JSON.parse`. -/
inductive Json where
  | null
  | bool (b : Bool)
  | num (q : Rat)
  | str (s : String)
  | arr (elems : List Json)
  | obj (fields : List (String × Json))
deriving Repr

/-- JS property access `j.k` on an object, `none` when absent or not an
object (JS `undefined`). -/
def Json.get? (j : Json) (k : String) : Option Json :=
  match j with
  | Json.obj fields => fields.lookup k
  | _ => none

/-- JS index access `j[n]` on an array. -/
def Json.idx? (j : Json) (n : Nat) : Option Json :=
  match j with
  | Json.arr elems => elems[n]?
  | _ => none

/-- Field access expecting a string value. -/
def Json.getStr? (j : Json) (k : String) : Option String :=
  match j.get? k with
  | some (Json.str s) => some s
  | _ => none

/-- Field access expecting a numeric value. -/
def Json.getNum? (j : Json) (k : String) : Option Rat :=
  match j.get? k with
  | some (Json.num q) => some q
  | _ => none

/-- JS truthiness of a value, as used in guards like `data.data &&`. -/
def Json.truthy : Json → Bool
  | Json.null => false
  | Json.bool b => b
  | Json.num q => decide (q ≠ 0)
  | Json.str s => decide (s ≠ "")
  | Json.arr _ => true
  | Json.obj _ => true

/-- Whether an optional JS value is present and truthy. -/
def Json.otruthy (j : Option Json) : Bool :=
  match j with
  | some v => v.truthy
  | none => false

/-- Errors thrown by the adapter layer. `notConfigured` models
`throw new Error("... not configured")`; `requestFailed` models
`throw new Error` with the HTTP status and the response body text;
`unsupportedVenue` models the `default` branch of venue switches;
`notConnected` models the Rithmic "Not connected" error. -/
inductive ApiError where
  | notConfigured (msg : String)
  | requestFailed (status : Nat) (bodyText : String)
  | unsupportedVenue (name : String)
  | notConnected (msg : String)
deriving DecidableEq, Repr

/-- An HTTP response as observed by `fetch`: status code, body text, and
the parsed JSON body. -/
structure HttpResponse where
  status : Nat
  bodyText : String
  body : Json

/-- JS `Response.ok`: status in the 200..299 range. -/
def HttpResponse.respOk (r : HttpResponse) : Bool :=
  decide (200 ≤ r.status) && decide (r.status < 300)

/-- Externally visible socket actions, in the order the code performs
them. -/
inductive WsAction where
  | closeSocket (h : Socket)
  | openSocket (url : String)
  | sendFrame (url : String)
deriving DecidableEq, Repr

namespace TradingAPI

/-- `BrokerConfig` from src/lib/trading-api.ts. -/
structure BrokerConfig where
  name : String
  apiKey : String
  secretKey : Option String
  baseUrl : String
  sandbox : Bool
  accountId : Option String
deriving DecidableEq, Repr

/-- `MarketDataTick` from src/lib/trading-api.ts. Fields are `Option`
because a missing JSON source field yields JS `undefined`. -/
structure MarketDataTick where
  symbol : Option String
  price : Option Rat
  bid : Option Rat
  ask : Option Rat
  volume : Option Rat
  timestamp : Option Rat
  change : Rat
  changePercent : Rat
deriving DecidableEq, Repr

/-- Instance fields of class `TradingAPI`. Callbacks are identified by
opaque ids (`Nat`); invoking a callback is recorded, not executed. -/
structure State where
  config : Option BrokerConfig
  websocket : Option Socket
  marketDataCallbacks : List Nat
  orderUpdateCallbacks : List Nat
  reconnectAttempts : Nat
deriving Repr

/-- `private maxReconnectAttempts = 5` (never reassigned). -/
def maxReconnectAttempts : Nat := 5

/-- `configure(config)`: stores the config and resets the attempt
counter. It does not touch the websocket or the callback lists. -/
def configure (c : BrokerConfig) (st : State) : State :=
  { st with config := some c, reconnectAttempts := 0 }

/-- `getWebSocketUrl()`, as a function of the config. -/
def getWebSocketUrlOf (c : BrokerConfig) : Except ApiError String :=
  if c.name = "alpaca" then
    Except.ok (if c.sandbox then "wss://stream.data.sandbox.alpaca.markets/v2/iex"
               else "wss://stream.data.alpaca.markets/v2/iex")
  else if c.name = "polygon" then
    Except.ok (if c.sandbox then "wss://socket.polygon.io/stocks"
               else "wss://socket.polygon.io/stocks")
  else if c.name = "finnhub" then
    Except.ok "wss://ws.finnhub.io"
  else
    Except.error (ApiError.unsupportedVenue c.name)

/-- `connectMarketData(symbols)`: fails when unconfigured; otherwise
closes any existing socket, derives the URL and opens a new socket.
Returns the post-state, the socket actions in program order, and the
call's outcome. The subscription handshake happens later, in the `onopen`
handler, so it is not part of this trace. -/
def connectMarketData (_symbols : List String) (st : State) :
    State × List WsAction × Except ApiError Unit :=
  match st.config with
  | none => (st, [], Except.error (ApiError.notConfigured "Trading API not configured"))
  | some cfg =>
    let closeActs : List WsAction :=
      match st.websocket with
      | some w => [WsAction.closeSocket w]
      | none => []
    match getWebSocketUrlOf cfg with
    | Except.error e =>
        ({ st with websocket := st.websocket.map Socket.closeSock }, closeActs, Except.error e)
    | Except.ok url =>
        ({ st with websocket := some { url := url, readyState := SockState.connecting } },
         closeActs ++ [WsAction.openSocket url], Except.ok ())

/-- The `onopen` handler: marks the socket open and resets the
reconnection attempt counter (the subscription send is elided). -/
def handleOpen (st : State) : State :=
  { st with
    websocket := st.websocket.map (fun w => { w with readyState := SockState.open }),
    reconnectAttempts := 0 }

/-- `handleReconnection(symbols)`: below the attempt cap, increments the
counter and schedules a reconnect after `2 ^ attempts * 1000` ms;
otherwise schedules nothing. Returns the new state and the scheduled
delay, if any. -/
def handleReconnection (st : State) : State × Option Nat :=
  if st.reconnectAttempts < maxReconnectAttempts then
    let attempts := st.reconnectAttempts + 1
    ({ st with reconnectAttempts := attempts }, some (2 ^ attempts * 1000))
  else
    (st, none)

/-- The delays scheduled by `n` consecutive close events with no
successful reopen in between. -/
def closeDelays : Nat → State → List (Option Nat)
  | 0, _ => []
  | n + 1, st =>
    let p := handleReconnection st
    p.2 :: closeDelays n p.1

/-- `onMarketData(callback)`: appends to the market-data callback list. -/
def onMarketData (cb : Nat) (st : State) : State :=
  { st with marketDataCallbacks := st.marketDataCallbacks ++ [cb] }

/-- `onOrderUpdate(callback)`: appends to the order-update list. -/
def onOrderUpdate (cb : Nat) (st : State) : State :=
  { st with orderUpdateCallbacks := st.orderUpdateCallbacks ++ [cb] }

/-- `disconnect()`: closes and drops the socket and empties both callback
lists. Note it does not touch `reconnectAttempts`. -/
def disconnect (st : State) : State :=
  { st with
    websocket := none,
    marketDataCallbacks := [],
    orderUpdateCallbacks := [] }

/-- `isConnected()`: `websocket?.readyState === WebSocket.OPEN`. -/
def isConnected (st : State) : Bool :=
  match st.websocket with
  | some w => decide (w.readyState = SockState.open)
  | none => false

/-- `parseAlpacaData(data)`: a trade frame (`data.T === "t"`) becomes a
tick; anything else yields `null`. `dateMs` abstracts JS
`new Date(s).getTime()`. -/
def parseAlpacaData (dateMs : String → Rat) (data : Json) : Option MarketDataTick :=
  if data.getStr? "T" = some "t" then
    some { symbol := data.getStr? "S"
           price := data.getNum? "p"
           bid := (data.getNum? "p").map (fun p => p - 1/100)
           ask := (data.getNum? "p").map (fun p => p + 1/100)
           volume := data.getNum? "s"
           timestamp := (data.getStr? "t").map dateMs
           change := 0
           changePercent := 0 }
  else
    none

/-- `parsePolygonData(data)`: a trade event (`data.ev === "T"`) becomes a
tick; anything else yields `null`. -/
def parsePolygonData (data : Json) : Option MarketDataTick :=
  if data.getStr? "ev" = some "T" then
    some { symbol := data.getStr? "sym"
           price := data.getNum? "p"
           bid := (data.getNum? "p").map (fun p => p - 1/100)
           ask := (data.getNum? "p").map (fun p => p + 1/100)
           volume := data.getNum? "s"
           timestamp := data.getNum? "t"
           change := 0
           changePercent := 0 }
  else
    none

/-- `parseFinnhubData(data)`: a trade message (`data.type === "trade"`)
becomes a tick; anything else yields `null`. -/
def parseFinnhubData (data : Json) : Option MarketDataTick :=
  if data.getStr? "type" = some "trade" then
    some { symbol := data.getStr? "s"
           price := data.getNum? "p"
           bid := (data.getNum? "p").map (fun p => p - 1/100)
           ask := (data.getNum? "p").map (fun p => p + 1/100)
           volume := data.getNum? "v"
           timestamp := data.getNum? "t"
           change := 0
           changePercent := 0 }
  else
    none

/-- The normalizer `handleMarketDataMessage` selects per venue name. A
name outside the switch leaves the tick `null`. -/
def parseForVenue (dateMs : String → Rat) (name : String) (data : Json) :
    Option MarketDataTick :=
  if name = "alpaca" then parseAlpacaData dateMs data
  else if name = "polygon" then parsePolygonData data
  else if name = "finnhub" then parseFinnhubData data
  else none

/-- `handleMarketDataMessage(data)`: returns the callback invocations it
performs, as (callback id, tick) pairs in invocation order. Unconfigured
states and `null` normalizations invoke nothing; no error is raised in
either case. -/
def handleMarketDataMessage (dateMs : String → Rat) (data : Json) (st : State) :
    List (Nat × MarketDataTick) :=
  match st.config with
  | none => []
  | some cfg =>
    match parseForVenue dateMs cfg.name data with
    | none => []
    | some tick => st.marketDataCallbacks.map (fun cb => (cb, tick))

/-- `getAuthHeaders()`, as a function of the config: the fixed per-venue
header name/value list. -/
def getAuthHeadersOf (c : BrokerConfig) : Except ApiError (List (String × String)) :=
  if c.name = "alpaca" then
    Except.ok [("APCA-API-KEY-ID", c.apiKey),
               ("APCA-API-SECRET-KEY", c.secretKey.getD "")]
  else if c.name = "polygon" then
    Except.ok [("Authorization", "Bearer " ++ c.apiKey)]
  else if c.name = "finnhub" then
    Except.ok [("X-Finnhub-Token", c.apiKey)]
  else
    Except.error (ApiError.unsupportedVenue c.name)

/-- `makeApiRequest(method, endpoint, body?)`, with the venue's HTTP
response supplied as an argument. Returns the outcome and the number of
HTTP requests issued by the call. A non-2xx response throws an error
carrying the status code and the response body text; the request is
issued exactly once and never retried. -/
def makeApiRequest (st : State) (resp : HttpResponse) : Except ApiError Json × Nat :=
  match st.config with
  | none => (Except.error (ApiError.notConfigured "Trading API not configured"), 0)
  | some _ =>
    if resp.respOk then (Except.ok resp.body, 1)
    else (Except.error (ApiError.requestFailed resp.status resp.bodyText), 1)

/-- `OrderStatus` fields as parsed by `parseOrderResponse`; only the
fields the claims inspect are carried faithfully, the rest as raw JSON
lookups with the source's `||` fallbacks. -/
structure OrderStatus where
  orderId : Option Json
  symbol : Option Json
  side : Option Json
  quantity : Option Json
  filledQuantity : Json
  avgFillPrice : Json
  status : Option Json
deriving Repr

/-- JS `a || b`: first operand unless absent or falsy. -/
def jsOr (a : Option Json) (b : Option Json) : Option Json :=
  if Json.otruthy a then a else b

/-- JS `a || b` with a literal default. -/
def jsOrD (a : Option Json) (d : Json) : Json :=
  if Json.otruthy a then a.getD d else d

/-- `parseOrderResponse(response)`. -/
def parseOrderResponse (r : Json) : OrderStatus :=
  { orderId := jsOr (r.get? "id") (r.get? "order_id")
    symbol := r.get? "symbol"
    side := r.get? "side"
    quantity := jsOr (r.get? "qty") (r.get? "quantity")
    filledQuantity := jsOrD (jsOr (r.get? "filled_qty") (r.get? "filled_quantity")) (Json.num 0)
    avgFillPrice := jsOrD (jsOr (r.get? "filled_avg_price") (r.get? "avg_fill_price")) (Json.num 0)
    status := r.get? "status" }

/-- `placeOrder(order)`: configuration check, then one `makeApiRequest`;
a failed request's error is logged and rethrown unchanged. Returns the
outcome and the number of HTTP requests issued. -/
def placeOrder (st : State) (resp : HttpResponse) : Except ApiError OrderStatus × Nat :=
  match st.config with
  | none => (Except.error (ApiError.notConfigured "Trading API not configured"), 0)
  | some _ =>
    match makeApiRequest st resp with
    | (Except.error e, n) => (Except.error e, n)
    | (Except.ok body, n) => (Except.ok (parseOrderResponse body), n)

/-- `cancelOrder(orderId)`: configuration check, then one request; errors
rethrown unchanged. -/
def cancelOrder (st : State) (resp : HttpResponse) : Except ApiError Unit × Nat :=
  match st.config with
  | none => (Except.error (ApiError.notConfigured "Trading API not configured"), 0)
  | some _ =>
    match makeApiRequest st resp with
    | (Except.error e, n) => (Except.error e, n)
    | (Except.ok _, n) => (Except.ok (), n)

/-- `getAccount()`: configuration check, then one request; errors
rethrown unchanged (account parsing elided — no claim inspects it). -/
def getAccount (st : State) (resp : HttpResponse) : Except ApiError Json × Nat :=
  match st.config with
  | none => (Except.error (ApiError.notConfigured "Trading API not configured"), 0)
  | some _ => makeApiRequest st resp

/-- `getPositions()`: configuration check, then one request; errors
rethrown unchanged. -/
def getPositions (st : State) (resp : HttpResponse) : Except ApiError Json × Nat :=
  match st.config with
  | none => (Except.error (ApiError.notConfigured "Trading API not configured"), 0)
  | some _ => makeApiRequest st resp

/-- `getOrders(status?)`: configuration check, then one request; errors
rethrown unchanged. -/
def getOrders (st : State) (resp : HttpResponse) :
    Except ApiError (List OrderStatus) × Nat :=
  match st.config with
  | none => (Except.error (ApiError.notConfigured "Trading API not configured"), 0)
  | some _ =>
    match makeApiRequest st resp with
    | (Except.error e, n) => (Except.error e, n)
    | (Except.ok body, n) =>
      match body with
      | Json.arr elems => (Except.ok (elems.map parseOrderResponse), n)
      | _ => (Except.ok [], n)

end TradingAPI

/-- Optional-chained field access on an optional object. -/
def ogetStr? (o : Option Json) (k : String) : Option String :=
  match o with
  | some j => j.getStr? k
  | none => none

/-- Optional-chained numeric field access. -/
def ogetNum? (o : Option Json) (k : String) : Option Rat :=
  match o with
  | some j => j.getNum? k
  | none => none

/-- Optional-chained object field access. -/
def oget? (o : Option Json) (k : String) : Option Json :=
  match o with
  | some j => j.get? k
  | none => none

/-- Optional-chained index access. -/
def oidx? (o : Option Json) (n : Nat) : Option Json :=
  match o with
  | some j => j.idx? n
  | none => none

/-- Undefined-propagating product of two JS numbers. -/
def omul (a b : Option Rat) : Option Rat :=
  match a, b with
  | some x, some y => some (x * y)
  | _, _ => none

/-- Undefined-propagating quotient of two JS numbers (0-denominator
behaviour is absorbed into `Rat` division; no claim inspects it). -/
def odiv (a b : Option Rat) : Option Rat :=
  match a, b with
  | some x, some y => some (x / y)
  | _, _ => none

/-- `ticker.k[n]` as a JS number: array field access then index. -/
def ogetNumIdx (o : Option Json) (k : String) (n : Nat) : Option Rat :=
  match oidx? (oget? o k) n with
  | some (Json.num q) => some q
  | _ => none

namespace CryptoAPI

/-- `CryptoExchangeConfig` from src/lib/crypto-api.ts. -/
structure CryptoExchangeConfig where
  name : String
  apiKey : String
  secretKey : String
  passphrase : Option String
  baseUrl : String
  testnet : Bool
  leverage : Option Nat
deriving DecidableEq, Repr

/-- `CryptoMarketData` from src/lib/crypto-api.ts; `Option` fields model
JS `undefined`/NaN propagation from missing source fields. -/
structure CryptoMarketData where
  symbol : Option String
  price : Option Rat
  bid : Option Rat
  ask : Option Rat
  volume24h : Option Rat
  change24h : Option Rat
  changePercent24h : Option Rat
  high24h : Option Rat
  low24h : Option Rat
  timestamp : Option Rat
deriving DecidableEq, Repr

/-- Instance fields of class `CryptoAPI`. -/
structure State where
  config : Option CryptoExchangeConfig
  websocket : Option Socket
  marketDataCallbacks : List Nat
  orderUpdateCallbacks : List Nat
  reconnectAttempts : Nat
deriving Repr

/-- `private maxReconnectAttempts = 5`. -/
def maxReconnectAttempts : Nat := 5

/-- `configure(config)`. -/
def configure (c : CryptoExchangeConfig) (st : State) : State :=
  { st with config := some c, reconnectAttempts := 0 }

/-- `getWebSocketUrl()` as a function of the config. -/
def getWebSocketUrlOf (c : CryptoExchangeConfig) : Except ApiError String :=
  if c.name = "bybit" then
    Except.ok (if c.testnet then "wss://stream-testnet.bybit.com/v5/public/linear"
               else "wss://stream.bybit.com/v5/public/linear")
  else if c.name = "kucoin" then
    Except.ok (if c.testnet then "wss://ws-api-sandbox.kucoin.com/"
               else "wss://ws-api-spot.kucoin.com/")
  else if c.name = "kraken" then
    Except.ok "wss://ws.kraken.com"
  else if c.name = "crypto_com" then
    Except.ok (if c.testnet then "wss://uat-stream.3ona.co/v2/market"
               else "wss://stream.crypto.com/v2/market")
  else if c.name = "coinex" then
    Except.ok "wss://socket.coinex.com/"
  else if c.name = "bitget" then
    Except.ok (if c.testnet then "wss://ws.bitgetapi.com/spot/v1/stream"
               else "wss://ws.bitgetapi.com/spot/v1/stream")
  else
    Except.error (ApiError.unsupportedVenue c.name)

/-- `connectMarketData(symbols)`: same structure as the broker adapter —
configuration check, close any prior socket, open the new one. -/
def connectMarketData (_symbols : List String) (st : State) :
    State × List WsAction × Except ApiError Unit :=
  match st.config with
  | none => (st, [], Except.error (ApiError.notConfigured "Crypto API not configured"))
  | some cfg =>
    let closeActs : List WsAction :=
      match st.websocket with
      | some w => [WsAction.closeSocket w]
      | none => []
    match getWebSocketUrlOf cfg with
    | Except.error e =>
        ({ st with websocket := st.websocket.map Socket.closeSock }, closeActs, Except.error e)
    | Except.ok url =>
        ({ st with websocket := some { url := url, readyState := SockState.connecting } },
         closeActs ++ [WsAction.openSocket url], Except.ok ())

/-- The `onopen` handler: socket open, attempt counter reset. -/
def handleOpen (st : State) : State :=
  { st with
    websocket := st.websocket.map (fun w => { w with readyState := SockState.open }),
    reconnectAttempts := 0 }

/-- `handleReconnection(symbols)`: identical backoff policy to the broker
adapter. -/
def handleReconnection (st : State) : State × Option Nat :=
  if st.reconnectAttempts < maxReconnectAttempts then
    let attempts := st.reconnectAttempts + 1
    ({ st with reconnectAttempts := attempts }, some (2 ^ attempts * 1000))
  else
    (st, none)

/-- Delays scheduled by `n` consecutive close events. -/
def closeDelays : Nat → State → List (Option Nat)
  | 0, _ => []
  | n + 1, st =>
    let p := handleReconnection st
    p.2 :: closeDelays n p.1

/-- `onMarketData(callback)`. -/
def onMarketData (cb : Nat) (st : State) : State :=
  { st with marketDataCallbacks := st.marketDataCallbacks ++ [cb] }

/-- `onOrderUpdate(callback)`. -/
def onOrderUpdate (cb : Nat) (st : State) : State :=
  { st with orderUpdateCallbacks := st.orderUpdateCallbacks ++ [cb] }

/-- `disconnect()`: closes and drops the socket, empties both callback
lists, leaves `reconnectAttempts` untouched. -/
def disconnect (st : State) : State :=
  { st with
    websocket := none,
    marketDataCallbacks := [],
    orderUpdateCallbacks := [] }

/-- `isConnected()`. -/
def isConnected (st : State) : Bool :=
  match st.websocket with
  | some w => decide (w.readyState = SockState.open)
  | none => false

/-- `parseBybitData(data)`: guarded by
`data.topic && data.topic.startsWith("tickers.") && data.data`. -/
def parseBybitData (data : Json) : Option CryptoMarketData :=
  match data.getStr? "topic" with
  | some topic =>
    if topic ≠ "" && topic.startsWith "tickers." && Json.otruthy (data.get? "data") then
      let ticker := data.get? "data"
      some { symbol := ogetStr? ticker "symbol"
             price := ogetNum? ticker "lastPrice"
             bid := ogetNum? ticker "bid1Price"
             ask := ogetNum? ticker "ask1Price"
             volume24h := ogetNum? ticker "volume24h"
             change24h := omul (ogetNum? ticker "price24hPcnt") (ogetNum? ticker "lastPrice")
             changePercent24h := omul (ogetNum? ticker "price24hPcnt") (some 100)
             high24h := ogetNum? ticker "highPrice24h"
             low24h := ogetNum? ticker "lowPrice24h"
             timestamp := ogetNum? ticker "time" }
    else none
  | none => none

/-- `parseKuCoinData(data)`: guarded by `data.type === "message" &&
data.topic === "/market/ticker:all" && data.data`. -/
def parseKuCoinData (data : Json) : Option CryptoMarketData :=
  if data.getStr? "type" = some "message" &&
     data.getStr? "topic" = some "/market/ticker:all" &&
     Json.otruthy (data.get? "data") then
    let ticker := data.get? "data"
    some { symbol := ogetStr? ticker "symbol"
           price := ogetNum? ticker "price"
           bid := ogetNum? ticker "bestBid"
           ask := ogetNum? ticker "bestAsk"
           volume24h := ogetNum? ticker "vol"
           change24h := ogetNum? ticker "changePrice"
           changePercent24h := omul (ogetNum? ticker "changeRate") (some 100)
           high24h := ogetNum? ticker "high"
           low24h := ogetNum? ticker "low"
           timestamp := ogetNum? ticker "time" }
  else none

/-- `parseKrakenData(data)`: guarded by `Array.isArray(data) && data[1]
&& data[2] === "ticker"`; the timestamp is `Date.now()`, passed as
`now`. -/
def parseKrakenData (now : Rat) (data : Json) : Option CryptoMarketData :=
  match data with
  | Json.arr elems =>
    if Json.otruthy elems[1]? &&
       (match elems[2]? with
        | some (Json.str s) => decide (s = "ticker")
        | _ => false) then
      let ticker := elems[1]?
      some { symbol := match elems[3]? with
                       | some (Json.str s) => some s
                       | _ => none
             price := ogetNumIdx ticker "c" 0
             bid := ogetNumIdx ticker "b" 0
             ask := ogetNumIdx ticker "a" 0
             volume24h := ogetNumIdx ticker "v" 1
             change24h := ogetNumIdx ticker "p" 1
             changePercent24h :=
               omul (odiv (ogetNumIdx ticker "p" 1) (ogetNumIdx ticker "c" 0)) (some 100)
             high24h := ogetNumIdx ticker "h" 1
             low24h := ogetNumIdx ticker "l" 1
             timestamp := some now }
    else none
  | _ => none

/-- `parseCryptoComData(data)`: guarded by `data.method === "subscribe"
&& data.result && data.result.data`. -/
def parseCryptoComData (data : Json) : Option CryptoMarketData :=
  if data.getStr? "method" = some "subscribe" &&
     Json.otruthy (data.get? "result") &&
     Json.otruthy (oget? (data.get? "result") "data") then
    let ticker := oget? (data.get? "result") "data"
    some { symbol := ogetStr? ticker "i"
           price := ogetNum? ticker "a"
           bid := ogetNum? ticker "b"
           ask := ogetNum? ticker "k"
           volume24h := ogetNum? ticker "v"
           change24h := ogetNum? ticker "c"
           changePercent24h := omul (odiv (ogetNum? ticker "c") (ogetNum? ticker "a")) (some 100)
           high24h := ogetNum? ticker "h"
           low24h := ogetNum? ticker "l"
           timestamp := ogetNum? ticker "t" }
  else none

/-- `parseCoinExData(data)`: guarded by `data.method === "state.update"
&& data.params`; timestamp is `Date.now()`. -/
def parseCoinExData (now : Rat) (data : Json) : Option CryptoMarketData :=
  if data.getStr? "method" = some "state.update" &&
     Json.otruthy (data.get? "params") then
    let params := data.get? "params"
    let ticker := oidx? params 1
    some { symbol := match oidx? params 0 with
                     | some (Json.str s) => some s
                     | _ => none
           price := ogetNum? ticker "last"
           bid := ogetNum? ticker "bid"
           ask := ogetNum? ticker "ask"
           volume24h := ogetNum? ticker "vol"
           change24h := ogetNum? ticker "change"
           changePercent24h := omul (odiv (ogetNum? ticker "change") (ogetNum? ticker "last")) (some 100)
           high24h := ogetNum? ticker "high"
           low24h := ogetNum? ticker "low"
           timestamp := some now }
  else none

/-- `parseBitgetData(data)`: guarded by `data.action === "snapshot" &&
data.arg && data.data`. -/
def parseBitgetData (data : Json) : Option CryptoMarketData :=
  if data.getStr? "action" = some "snapshot" &&
     Json.otruthy (data.get? "arg") &&
     Json.otruthy (data.get? "data") then
    let ticker := oidx? (data.get? "data") 0
    some { symbol := ogetStr? (data.get? "arg") "instId"
           price := ogetNum? ticker "last"
           bid := ogetNum? ticker "bidPx"
           ask := ogetNum? ticker "askPx"
           volume24h := ogetNum? ticker "baseVolume"
           change24h := ogetNum? ticker "change24h"
           changePercent24h := omul (ogetNum? ticker "changeUtc24h") (some 100)
           high24h := ogetNum? ticker "high24h"
           low24h := ogetNum? ticker "low24h"
           timestamp := ogetNum? ticker "ts" }
  else none

/-- Venue dispatch inside `handleMarketDataMessage`. -/
def parseForVenue (now : Rat) (name : String) (data : Json) : Option CryptoMarketData :=
  if name = "bybit" then parseBybitData data
  else if name = "kucoin" then parseKuCoinData data
  else if name = "kraken" then parseKrakenData now data
  else if name = "crypto_com" then parseCryptoComData data
  else if name = "coinex" then parseCoinExData now data
  else if name = "bitget" then parseBitgetData data
  else none

/-- `handleMarketDataMessage(data)`: callback invocations performed, in
order; `null` normalizations invoke nothing and raise nothing. -/
def handleMarketDataMessage (now : Rat) (data : Json) (st : State) :
    List (Nat × CryptoMarketData) :=
  match st.config with
  | none => []
  | some cfg =>
    match parseForVenue now cfg.name data with
    | none => []
    | some tick => st.marketDataCallbacks.map (fun cb => (cb, tick))

/-- `getAuthHeaders(method, endpoint, timestamp, body?)` as a function of
the config and the timestamp string. -/
def getAuthHeadersOf (c : CryptoExchangeConfig) (timestamp : String) :
    Except ApiError (List (String × String)) :=
  if c.name = "bybit" then
    Except.ok [("X-BAPI-API-KEY", c.apiKey),
               ("X-BAPI-TIMESTAMP", timestamp),
               ("X-BAPI-RECV-WINDOW", "5000")]
  else if c.name = "kucoin" then
    Except.ok [("KC-API-KEY", c.apiKey),
               ("KC-API-TIMESTAMP", timestamp),
               ("KC-API-PASSPHRASE", c.passphrase.getD "")]
  else if c.name = "kraken" then
    Except.ok [("API-Key", c.apiKey)]
  else if c.name = "crypto_com" then
    Except.ok [("X-CRO-API-KEY", c.apiKey)]
  else if c.name = "coinex" then
    Except.ok [("AccessId", c.apiKey), ("Tonce", timestamp)]
  else if c.name = "bitget" then
    Except.ok [("ACCESS-KEY", c.apiKey), ("ACCESS-TIMESTAMP", timestamp)]
  else
    Except.error (ApiError.unsupportedVenue c.name)

/-- `makeApiRequest`: one fetch; non-2xx throws with status and body
text; never retried. -/
def makeApiRequest (st : State) (resp : HttpResponse) : Except ApiError Json × Nat :=
  match st.config with
  | none => (Except.error (ApiError.notConfigured "Crypto API not configured"), 0)
  | some _ =>
    if resp.respOk then (Except.ok resp.body, 1)
    else (Except.error (ApiError.requestFailed resp.status resp.bodyText), 1)

/-- `placeOrder(order)`: configuration check, then one request; the raw
response body is returned; errors rethrown unchanged. -/
def placeOrder (st : State) (resp : HttpResponse) : Except ApiError Json × Nat :=
  match st.config with
  | none => (Except.error (ApiError.notConfigured "Crypto API not configured"), 0)
  | some _ => makeApiRequest st resp

/-- `getAccount()`: configuration check, then one request; errors
rethrown unchanged (account parsing elided). -/
def getAccount (st : State) (resp : HttpResponse) : Except ApiError Json × Nat :=
  match st.config with
  | none => (Except.error (ApiError.notConfigured "Crypto API not configured"), 0)
  | some _ => makeApiRequest st resp

/-- `getPositions()`: configuration check, then one request; errors
rethrown unchanged. -/
def getPositions (st : State) (resp : HttpResponse) : Except ApiError Json × Nat :=
  match st.config with
  | none => (Except.error (ApiError.notConfigured "Crypto API not configured"), 0)
  | some _ => makeApiRequest st resp

end CryptoAPI

namespace RithmicAPI

/-- `environment: "test" | "live"` of `RithmicConfig`. -/
inductive Env where
  | test
  | live
deriving DecidableEq, Repr

/-- `RithmicConfig` from the Rithmic adapter source. -/
structure RithmicConfig where
  username : String
  password : String
  systemName : String
  appName : String
  appVersion : String
  environment : Env
  gateway : String
deriving DecidableEq, Repr

/-- `RithmicOrderRequest`; the string-union enums (`side`, `orderType`,
`timeInForce`) are carried as strings. -/
structure RithmicOrderRequest where
  symbol : String
  exchange : String
  side : String
  quantity : Nat
  orderType : String
  price : Option Rat
  stopPrice : Option Rat
  timeInForce : String
  account : Option String
deriving Repr

/-- A frame sent to the Rithmic gateway: `template_id` plus the
`user_msg` string list. -/
structure RithmicMessage where
  template_id : Nat
  user_msg : List String
deriving DecidableEq, Repr

/-- Instance fields of class `RithmicAPI`. -/
structure State where
  config : Option RithmicConfig
  websocket : Option Socket
  accountUpdateCallbacks : List Nat
  marketDataCallbacks : List Nat
  orderUpdateCallbacks : List Nat
  connected : Bool
  reconnectAttempts : Nat
deriving Repr

/-- `private maxReconnectAttempts = 5`. -/
def maxReconnectAttempts : Nat := 5

/-- `configure(config)`. -/
def configure (c : RithmicConfig) (st : State) : State :=
  { st with config := some c, reconnectAttempts := 0 }

/-- `getWebSocketUrl()` as a function of the config: both environment
branches produce the same base URL, and the configured gateway is
appended. -/
def getWebSocketUrlOf (c : RithmicConfig) : String :=
  let baseUrl := if c.environment = Env.test
    then "wss://rituz00100.rithmic.com:443"
    else "wss://rituz00100.rithmic.com:443"
  baseUrl ++ "/" ++ c.gateway

/-- `connect()`: configuration check, close any prior socket, open the
gateway socket (authentication happens in `onopen`, elided from the
trace). -/
def connect (st : State) : State × List WsAction × Except ApiError Unit :=
  match st.config with
  | none => (st, [], Except.error (ApiError.notConfigured "Rithmic API not configured"))
  | some cfg =>
    let closeActs : List WsAction :=
      match st.websocket with
      | some w => [WsAction.closeSocket w]
      | none => []
    let url := getWebSocketUrlOf cfg
    ({ st with websocket := some { url := url, readyState := SockState.connecting } },
     closeActs ++ [WsAction.openSocket url], Except.ok ())

/-- The successful branch of `handleLoginResponse`: marks the session
connected and resets the attempt counter. -/
def handleLoginSuccess (st : State) : State :=
  { st with connected := true, reconnectAttempts := 0 }

/-- The `onclose` handler first clears `connected`; `handleReconnection`
then applies the identical backoff policy. -/
def handleReconnection (st : State) : State × Option Nat :=
  if st.reconnectAttempts < maxReconnectAttempts then
    let attempts := st.reconnectAttempts + 1
    ({ st with reconnectAttempts := attempts }, some (2 ^ attempts * 1000))
  else
    (st, none)

/-- Delays scheduled by `n` consecutive close events. -/
def closeDelays : Nat → State → List (Option Nat)
  | 0, _ => []
  | n + 1, st =>
    let p := handleReconnection st
    p.2 :: closeDelays n p.1

/-- `sendMessage(message)`: sends only when a socket exists and its
readyState is OPEN; otherwise the frame is silently dropped. Returns the
frames actually sent. -/
def sendMessage (msg : RithmicMessage) (st : State) : List RithmicMessage :=
  match st.websocket with
  | some w => if w.readyState = SockState.open then [msg] else []
  | none => []

/-- The order frame built by `placeOrder`. -/
def orderMessageOf (order : RithmicOrderRequest) : RithmicMessage :=
  { template_id := 300
    user_msg := [order.symbol,
                 order.exchange,
                 order.side,
                 Nat.repr order.quantity,
                 order.orderType,
                 (order.price.map (fun q => toString q)).getD "",
                 (order.stopPrice.map (fun q => toString q)).getD "",
                 order.timeInForce,
                 order.account.getD ""] }

/-- `placeOrder(order)`: fails when not connected; otherwise attempts to
send the order frame and resolves with a locally generated order id —
the current time (`Date.now()`, passed as `now`) rendered as a decimal
string. Returns the frames actually sent and the outcome. -/
def placeOrder (order : RithmicOrderRequest) (now : Nat) (st : State) :
    List RithmicMessage × Except ApiError String :=
  if st.connected then
    (sendMessage (orderMessageOf order) st, Except.ok (Nat.repr now))
  else
    ([], Except.error (ApiError.notConnected "Not connected to Rithmic"))

/-- `RithmicMarketData` as built by `handleMarketDataUpdate`: missing
fields default to empty string / zero via the source's `|| 0`
fallbacks. -/
structure RithmicMarketData where
  symbol : String
  exchange : String
  lastPrice : Rat
  bidPrice : Rat
  askPrice : Rat
  bidSize : Rat
  askSize : Rat
  volume : Rat
  openPrice : Rat
  highPrice : Rat
  lowPrice : Rat
  settlementPrice : Rat
  timestamp : Rat
deriving DecidableEq, Repr

/-- `handleMarketDataUpdate(message)` (template 150): builds a tick and
dispatches it to every market-data callback, in registration order.
Returns the invocations performed. -/
def handleMarketDataUpdate (msg : Json) (now : Rat) (st : State) :
    List (Nat × RithmicMarketData) :=
  let tick : RithmicMarketData :=
    { symbol := (msg.getStr? "symbol").getD ""
      exchange := (msg.getStr? "exchange").getD ""
      lastPrice := (msg.getNum? "last_trade_price").getD 0
      bidPrice := (msg.getNum? "best_bid_price").getD 0
      askPrice := (msg.getNum? "best_ask_price").getD 0
      bidSize := (msg.getNum? "best_bid_quantity").getD 0
      askSize := (msg.getNum? "best_ask_quantity").getD 0
      volume := (msg.getNum? "total_volume").getD 0
      openPrice := (msg.getNum? "open_price").getD 0
      highPrice := (msg.getNum? "high_price").getD 0
      lowPrice := (msg.getNum? "low_price").getD 0
      settlementPrice := (msg.getNum? "settlement_price").getD 0
      timestamp := now }
  st.marketDataCallbacks.map (fun cb => (cb, tick))

/-- `handleOrderUpdate(message)` (template 102): dispatches the raw
message to every order-update callback. -/
def handleOrderUpdate (msg : Json) (st : State) : List (Nat × Json) :=
  st.orderUpdateCallbacks.map (fun cb => (cb, msg))

/-- `disconnect()`: closes and drops the socket, clears `connected`, and
empties all three callback lists; `reconnectAttempts` is untouched. -/
def disconnect (st : State) : State :=
  { st with
    websocket := none,
    connected := false,
    accountUpdateCallbacks := [],
    marketDataCallbacks := [],
    orderUpdateCallbacks := [] }

/-- `isConnected()`: the `connected` flag. -/
def isConnected (st : State) : Bool :=
  st.connected

end RithmicAPI

/-- The scheduled backoff delays depend only on the attempt counter. -/
theorem TradingAPI.tradingCloseDelaysCongr (n : Nat) :
    ∀ st st' : TradingAPI.State, st.reconnectAttempts = st'.reconnectAttempts →
      TradingAPI.closeDelays n st = TradingAPI.closeDelays n st' := by
  induction n with
  | zero => intro st st' h; rfl
  | succ n ih =>
    intro st st' h
    by_cases hlt : st'.reconnectAttempts < 5
    · simp only [TradingAPI.closeDelays, TradingAPI.handleReconnection,
                 TradingAPI.maxReconnectAttempts, h, if_pos hlt]
      exact congrArg _ (ih _ _ (by simp))
    · simp only [TradingAPI.closeDelays, TradingAPI.handleReconnection,
                 TradingAPI.maxReconnectAttempts, h, if_neg hlt]
      exact congrArg _ (ih _ _ h)

/-- The scheduled backoff delays depend only on the attempt counter. -/
theorem CryptoAPI.cryptoCloseDelaysCongr (n : Nat) :
    ∀ st st' : CryptoAPI.State, st.reconnectAttempts = st'.reconnectAttempts →
      CryptoAPI.closeDelays n st = CryptoAPI.closeDelays n st' := by
  induction n with
  | zero => intro st st' h; rfl
  | succ n ih =>
    intro st st' h
    by_cases hlt : st'.reconnectAttempts < 5
    · simp only [CryptoAPI.closeDelays, CryptoAPI.handleReconnection,
                 CryptoAPI.maxReconnectAttempts, h, if_pos hlt]
      exact congrArg _ (ih _ _ (by simp))
    · simp only [CryptoAPI.closeDelays, CryptoAPI.handleReconnection,
                 CryptoAPI.maxReconnectAttempts, h, if_neg hlt]
      exact congrArg _ (ih _ _ h)

/-- The scheduled backoff delays depend only on the attempt counter. -/
theorem RithmicAPI.rithmicCloseDelaysCongr (n : Nat) :
    ∀ st st' : RithmicAPI.State, st.reconnectAttempts = st'.reconnectAttempts →
      RithmicAPI.closeDelays n st = RithmicAPI.closeDelays n st' := by
  induction n with
  | zero => intro st st' h; rfl
  | succ n ih =>
    intro st st' h
    by_cases hlt : st'.reconnectAttempts < 5
    · simp only [RithmicAPI.closeDelays, RithmicAPI.handleReconnection,
                 RithmicAPI.maxReconnectAttempts, h, if_pos hlt]
      exact congrArg _ (ih _ _ (by simp))
    · simp only [RithmicAPI.closeDelays, RithmicAPI.handleReconnection,
                 RithmicAPI.maxReconnectAttempts, h, if_neg hlt]
      exact congrArg _ (ih _ _ h)

/-- A concrete freshly-configured broker adapter state. -/
def TradingAPI.freshState : TradingAPI.State :=
  { config := none, websocket := none, marketDataCallbacks := [],
    orderUpdateCallbacks := [], reconnectAttempts := 0 }

/-- A concrete freshly-configured crypto adapter state. -/
def CryptoAPI.freshState : CryptoAPI.State :=
  { config := none, websocket := none, marketDataCallbacks := [],
    orderUpdateCallbacks := [], reconnectAttempts := 0 }

/-- A concrete freshly-configured Rithmic adapter state. -/
def RithmicAPI.freshState : RithmicAPI.State :=
  { config := none, websocket := none, accountUpdateCallbacks := [],
    marketDataCallbacks := [], orderUpdateCallbacks := [],
    connected := false, reconnectAttempts := 0 }

/-- C1: for each adapter (TradingAPI, CryptoAPI, RithmicAPI), after
`configure`, five consecutive connection-close events with no successful
reopen schedule reconnection delays of exactly 2000, 4000, 8000, 16000,
32000 ms and a sixth close schedules nothing; below the cap the delay is
`2 ^ attempt * 1000` ms for the attempt number; once the cap is reached
every further close leaves the state unchanged and schedules nothing, and
only a fresh connect's open/login handler (or `configure`) resets the
attempt counter to zero. -/
theorem C1_reconnection_backoff :
    (∀ (c : TradingAPI.BrokerConfig) (st : TradingAPI.State),
       TradingAPI.closeDelays 6 (TradingAPI.configure c st) =
         [some 2000, some 4000, some 8000, some 16000, some 32000, none]) ∧
    (∀ (c : CryptoAPI.CryptoExchangeConfig) (st : CryptoAPI.State),
       CryptoAPI.closeDelays 6 (CryptoAPI.configure c st) =
         [some 2000, some 4000, some 8000, some 16000, some 32000, none]) ∧
    (∀ (c : RithmicAPI.RithmicConfig) (st : RithmicAPI.State),
       RithmicAPI.closeDelays 6 (RithmicAPI.configure c st) =
         [some 2000, some 4000, some 8000, some 16000, some 32000, none]) ∧
    (∀ (st : TradingAPI.State) (k : Fin 5),
       (TradingAPI.handleReconnection { st with reconnectAttempts := k.val }).2 =
         some (2 ^ (k.val + 1) * 1000)) ∧
    (∀ (st : CryptoAPI.State) (k : Fin 5),
       (CryptoAPI.handleReconnection { st with reconnectAttempts := k.val }).2 =
         some (2 ^ (k.val + 1) * 1000)) ∧
    (∀ (st : RithmicAPI.State) (k : Fin 5),
       (RithmicAPI.handleReconnection { st with reconnectAttempts := k.val }).2 =
         some (2 ^ (k.val + 1) * 1000)) ∧
    (∀ (st : TradingAPI.State) (m : Nat),
       TradingAPI.handleReconnection { st with reconnectAttempts := 5 + m } =
         ({ st with reconnectAttempts := 5 + m }, none)) ∧
    (∀ (st : CryptoAPI.State) (m : Nat),
       CryptoAPI.handleReconnection { st with reconnectAttempts := 5 + m } =
         ({ st with reconnectAttempts := 5 + m }, none)) ∧
    (∀ (st : RithmicAPI.State) (m : Nat),
       RithmicAPI.handleReconnection { st with reconnectAttempts := 5 + m } =
         ({ st with reconnectAttempts := 5 + m }, none)) ∧
    (∀ st, (TradingAPI.handleOpen st).reconnectAttempts = 0) ∧
    (∀ st, (CryptoAPI.handleOpen st).reconnectAttempts = 0) ∧
    (∀ st, (RithmicAPI.handleLoginSuccess st).reconnectAttempts = 0) := by
  refine ⟨?_, ?_, ?_, ?_, ?_, ?_, ?_, ?_, ?_, ?_, ?_, ?_⟩
  · intro c st
    exact (TradingAPI.tradingCloseDelaysCongr 6 _ TradingAPI.freshState rfl).trans rfl
  · intro c st
    exact (CryptoAPI.cryptoCloseDelaysCongr 6 _ CryptoAPI.freshState rfl).trans rfl
  · intro c st
    exact (RithmicAPI.rithmicCloseDelaysCongr 6 _ RithmicAPI.freshState rfl).trans rfl
  · intro st k
    simp [TradingAPI.handleReconnection, TradingAPI.maxReconnectAttempts, k.isLt]
  · intro st k
    simp [CryptoAPI.handleReconnection, CryptoAPI.maxReconnectAttempts, k.isLt]
  · intro st k
    simp [RithmicAPI.handleReconnection, RithmicAPI.maxReconnectAttempts, k.isLt]
  · intro st m
    simp [TradingAPI.handleReconnection, TradingAPI.maxReconnectAttempts]
  · intro st m
    simp [CryptoAPI.handleReconnection, CryptoAPI.maxReconnectAttempts]
  · intro st m
    simp [RithmicAPI.handleReconnection, RithmicAPI.maxReconnectAttempts]
  · intro st; rfl
  · intro st; rfl
  · intro st; rfl

/-- C2 counterexample: the claim as stated requires the reconnection
attempt counter to equal zero after `disconnect()`; on a state whose
counter is 3, `disconnect()` leaves it at 3 — the source's `disconnect`
never touches `reconnectAttempts`. -/
theorem C2_counterexample_counter_not_reset :
    decide ((TradingAPI.disconnect
        { TradingAPI.freshState with reconnectAttempts := 3 }).reconnectAttempts = 0)
      = false := by
  decide

/-- C2 (amended): after `disconnect()` on any adapter state, the socket
handle is cleared so `isConnected()` returns false, every callback list
is empty, a subsequently delivered normalized event reaches zero
callbacks — but the reconnection attempt counter is left unchanged, not
reset to zero. -/
theorem C2_disconnect_clears_state_amended :
    (∀ st : TradingAPI.State,
       (TradingAPI.disconnect st).websocket = none ∧
       TradingAPI.isConnected (TradingAPI.disconnect st) = false ∧
       (TradingAPI.disconnect st).marketDataCallbacks = [] ∧
       (TradingAPI.disconnect st).orderUpdateCallbacks = [] ∧
       (∀ dateMs data,
          TradingAPI.handleMarketDataMessage dateMs data (TradingAPI.disconnect st) = []) ∧
       (TradingAPI.disconnect st).reconnectAttempts = st.reconnectAttempts) ∧
    (∀ st : CryptoAPI.State,
       (CryptoAPI.disconnect st).websocket = none ∧
       CryptoAPI.isConnected (CryptoAPI.disconnect st) = false ∧
       (CryptoAPI.disconnect st).marketDataCallbacks = [] ∧
       (CryptoAPI.disconnect st).orderUpdateCallbacks = [] ∧
       (∀ now data,
          CryptoAPI.handleMarketDataMessage now data (CryptoAPI.disconnect st) = []) ∧
       (CryptoAPI.disconnect st).reconnectAttempts = st.reconnectAttempts) ∧
    (∀ st : RithmicAPI.State,
       (RithmicAPI.disconnect st).websocket = none ∧
       RithmicAPI.isConnected (RithmicAPI.disconnect st) = false ∧
       (RithmicAPI.disconnect st).marketDataCallbacks = [] ∧
       (RithmicAPI.disconnect st).orderUpdateCallbacks = [] ∧
       (RithmicAPI.disconnect st).accountUpdateCallbacks = [] ∧
       (∀ msg now,
          RithmicAPI.handleMarketDataUpdate msg now (RithmicAPI.disconnect st) = []) ∧
       (∀ msg, RithmicAPI.handleOrderUpdate msg (RithmicAPI.disconnect st) = []) ∧
       (RithmicAPI.disconnect st).reconnectAttempts = st.reconnectAttempts) := by
  refine ⟨?_, ?_, ?_⟩
  · intro st
    refine ⟨rfl, rfl, rfl, rfl, ?_, rfl⟩
    intro dateMs data
    simp only [TradingAPI.handleMarketDataMessage, TradingAPI.disconnect]
    rcases st.config with _ | cfg
    · rfl
    · rcases hp : TradingAPI.parseForVenue dateMs cfg.name data with _ | tick <;>
        simp [hp]
  · intro st
    refine ⟨rfl, rfl, rfl, rfl, ?_, rfl⟩
    intro now data
    simp only [CryptoAPI.handleMarketDataMessage, CryptoAPI.disconnect]
    rcases st.config with _ | cfg
    · rfl
    · rcases hp : CryptoAPI.parseForVenue now cfg.name data with _ | tick <;>
        simp [hp]
  · intro st
    exact ⟨rfl, rfl, rfl, rfl, rfl, fun msg now => rfl, fun msg => rfl, rfl⟩

/-- A live (OPEN) socket handle used in concrete counterexamples. -/
def liveSock : Socket :=
  { url := "wss://stream.data.alpaca.markets/v2/iex", readyState := SockState.open }

/-- A concrete broker configuration. -/
def alpacaCfg : TradingAPI.BrokerConfig :=
  { name := "alpaca", apiKey := "key", secretKey := some "secret",
    baseUrl := "https://paper-api.alpaca.markets/v2", sandbox := true, accountId := none }

/-- A second, different broker configuration. -/
def polygonCfg : TradingAPI.BrokerConfig :=
  { name := "polygon", apiKey := "key2", secretKey := none,
    baseUrl := "https://api.polygon.io/v2", sandbox := false, accountId := none }

/-- A broker adapter state holding a live streaming session. -/
def liveTradingState : TradingAPI.State :=
  { TradingAPI.freshState with config := some alpacaCfg, websocket := some liveSock }

/-- C3 counterexample: the claim says `configure(newConfig)` on a state
holding a live session tears the session down (closes it). In the source
`configure` only stores the config and resets the attempt counter: after
`configure` with a new config on a live-session state the old socket is
still present and OPEN, so `isConnected()` still returns true. -/
theorem C3_counterexample_configure_keeps_session :
    TradingAPI.isConnected liveTradingState = true ∧
    decide (TradingAPI.isConnected (TradingAPI.configure polygonCfg liveTradingState) = false)
      = false := by
  exact ⟨rfl, by decide⟩

/-- C3 (amended): each adapter's state holds at most one socket handle;
`configure` leaves the socket untouched (no teardown), and it is the next
`connectMarketData`/`connect` call that closes the previous socket before
the new one is opened — in its action trace the close of the old handle
strictly precedes any open, so the sessions never overlap. -/
theorem C3_session_teardown_amended :
    (∀ (c : TradingAPI.BrokerConfig) (st : TradingAPI.State),
       (TradingAPI.configure c st).websocket = st.websocket) ∧
    (∀ (c : CryptoAPI.CryptoExchangeConfig) (st : CryptoAPI.State),
       (CryptoAPI.configure c st).websocket = st.websocket) ∧
    (∀ (c : RithmicAPI.RithmicConfig) (st : RithmicAPI.State),
       (RithmicAPI.configure c st).websocket = st.websocket) ∧
    (∀ (st : TradingAPI.State) (cfg : TradingAPI.BrokerConfig) (w : Socket)
       (syms : List String),
       (TradingAPI.connectMarketData syms
          { st with config := some cfg, websocket := some w }).2.1 =
         WsAction.closeSocket w ::
           (match TradingAPI.getWebSocketUrlOf cfg with
            | Except.ok url => [WsAction.openSocket url]
            | Except.error _ => [])) ∧
    (∀ (st : CryptoAPI.State) (cfg : CryptoAPI.CryptoExchangeConfig) (w : Socket)
       (syms : List String),
       (CryptoAPI.connectMarketData syms
          { st with config := some cfg, websocket := some w }).2.1 =
         WsAction.closeSocket w ::
           (match CryptoAPI.getWebSocketUrlOf cfg with
            | Except.ok url => [WsAction.openSocket url]
            | Except.error _ => [])) ∧
    (∀ (st : RithmicAPI.State) (cfg : RithmicAPI.RithmicConfig) (w : Socket),
       (RithmicAPI.connect
          { st with config := some cfg, websocket := some w }).2.1 =
         [WsAction.closeSocket w,
          WsAction.openSocket (RithmicAPI.getWebSocketUrlOf cfg)]) := by
  refine ⟨fun c st => rfl, fun c st => rfl, fun c st => rfl, ?_, ?_, ?_⟩
  · intro st cfg w syms
    simp only [TradingAPI.connectMarketData]
    rcases hu : TradingAPI.getWebSocketUrlOf cfg with e | url <;> simp [hu]
  · intro st cfg w syms
    simp only [CryptoAPI.connectMarketData]
    rcases hu : CryptoAPI.getWebSocketUrlOf cfg with e | url <;> simp [hu]
  · intro st cfg w
    rfl

/-- C4: on an unconfigured adapter (stored config is null), every
venue-contacting method — `connectMarketData`, `placeOrder`,
`cancelOrder`, `getAccount`, `getPositions`, `getOrders` on the broker
adapter and `connectMarketData`, `placeOrder`, `getAccount`,
`getPositions` on the crypto adapter — fails with the configuration
error, performs no socket action and issues zero HTTP requests, and
leaves the adapter state unchanged (the REST methods never write any
state field; `connectMarketData` returns the state it was given). -/
theorem C4_unconfigured_calls_fail_cleanly :
    (∀ (st : TradingAPI.State) (syms : List String),
       TradingAPI.connectMarketData syms { st with config := none } =
         ({ st with config := none }, [],
          Except.error (ApiError.notConfigured "Trading API not configured"))) ∧
    (∀ (st : TradingAPI.State) (resp : HttpResponse),
       TradingAPI.placeOrder { st with config := none } resp =
         (Except.error (ApiError.notConfigured "Trading API not configured"), 0)) ∧
    (∀ (st : TradingAPI.State) (resp : HttpResponse),
       TradingAPI.cancelOrder { st with config := none } resp =
         (Except.error (ApiError.notConfigured "Trading API not configured"), 0)) ∧
    (∀ (st : TradingAPI.State) (resp : HttpResponse),
       TradingAPI.getAccount { st with config := none } resp =
         (Except.error (ApiError.notConfigured "Trading API not configured"), 0)) ∧
    (∀ (st : TradingAPI.State) (resp : HttpResponse),
       TradingAPI.getPositions { st with config := none } resp =
         (Except.error (ApiError.notConfigured "Trading API not configured"), 0)) ∧
    (∀ (st : TradingAPI.State) (resp : HttpResponse),
       TradingAPI.getOrders { st with config := none } resp =
         (Except.error (ApiError.notConfigured "Trading API not configured"), 0)) ∧
    (∀ (st : CryptoAPI.State) (syms : List String),
       CryptoAPI.connectMarketData syms { st with config := none } =
         ({ st with config := none }, [],
          Except.error (ApiError.notConfigured "Crypto API not configured"))) ∧
    (∀ (st : CryptoAPI.State) (resp : HttpResponse),
       CryptoAPI.placeOrder { st with config := none } resp =
         (Except.error (ApiError.notConfigured "Crypto API not configured"), 0)) ∧
    (∀ (st : CryptoAPI.State) (resp : HttpResponse),
       CryptoAPI.getAccount { st with config := none } resp =
         (Except.error (ApiError.notConfigured "Crypto API not configured"), 0)) ∧
    (∀ (st : CryptoAPI.State) (resp : HttpResponse),
       CryptoAPI.getPositions { st with config := none } resp =
         (Except.error (ApiError.notConfigured "Crypto API not configured"), 0)) :=
  ⟨fun _ _ => rfl, fun _ _ => rfl, fun _ _ => rfl, fun _ _ => rfl,
   fun _ _ => rfl, fun _ _ => rfl, fun _ _ => rfl, fun _ _ => rfl,
   fun _ _ => rfl, fun _ _ => rfl⟩

/-- A concrete crypto exchange configuration. -/
def bybitCfg : CryptoAPI.CryptoExchangeConfig :=
  { name := "bybit", apiKey := "key", secretKey := "secret", passphrase := none,
    baseUrl := "https://api-testnet.bybit.com", testnet := true, leverage := none }

/-- A concrete non-2xx HTTP response. -/
def resp404 : HttpResponse :=
  { status := 404, bodyText := "not found", body := Json.null }

/-- C5: on a configured adapter, whenever the HTTP response is non-2xx,
every REST operation (the broker adapter's `makeApiRequest`,
`placeOrder`, `cancelOrder`, `getAccount`, `getPositions`, `getOrders`
and the crypto adapter's `makeApiRequest`, `placeOrder`, `getAccount`,
`getPositions`) fails with the error carrying exactly the response's
status code and body text — the facade propagates the gateway's error
unchanged — and the invocation issues exactly one HTTP request, so
order-mutating calls are never retried. -/
theorem C5_non2xx_error_propagated_unretried :
    ∀ (resp : HttpResponse) (stT : TradingAPI.State) (cfgT : TradingAPI.BrokerConfig)
      (stC : CryptoAPI.State) (cfgC : CryptoAPI.CryptoExchangeConfig),
      resp.respOk = false →
      (TradingAPI.makeApiRequest { stT with config := some cfgT } resp =
         (Except.error (ApiError.requestFailed resp.status resp.bodyText), 1)) ∧
      (TradingAPI.placeOrder { stT with config := some cfgT } resp =
         (Except.error (ApiError.requestFailed resp.status resp.bodyText), 1)) ∧
      (TradingAPI.cancelOrder { stT with config := some cfgT } resp =
         (Except.error (ApiError.requestFailed resp.status resp.bodyText), 1)) ∧
      (TradingAPI.getAccount { stT with config := some cfgT } resp =
         (Except.error (ApiError.requestFailed resp.status resp.bodyText), 1)) ∧
      (TradingAPI.getPositions { stT with config := some cfgT } resp =
         (Except.error (ApiError.requestFailed resp.status resp.bodyText), 1)) ∧
      (TradingAPI.getOrders { stT with config := some cfgT } resp =
         (Except.error (ApiError.requestFailed resp.status resp.bodyText), 1)) ∧
      (CryptoAPI.makeApiRequest { stC with config := some cfgC } resp =
         (Except.error (ApiError.requestFailed resp.status resp.bodyText), 1)) ∧
      (CryptoAPI.placeOrder { stC with config := some cfgC } resp =
         (Except.error (ApiError.requestFailed resp.status resp.bodyText), 1)) ∧
      (CryptoAPI.getAccount { stC with config := some cfgC } resp =
         (Except.error (ApiError.requestFailed resp.status resp.bodyText), 1)) ∧
      (CryptoAPI.getPositions { stC with config := some cfgC } resp =
         (Except.error (ApiError.requestFailed resp.status resp.bodyText), 1)) := by
  intro resp stT cfgT stC cfgC h
  refine ⟨?_, ?_, ?_, ?_, ?_, ?_, ?_, ?_, ?_, ?_⟩
  · simp [TradingAPI.makeApiRequest, h]
  · simp [TradingAPI.placeOrder, TradingAPI.makeApiRequest, h]
  · simp [TradingAPI.cancelOrder, TradingAPI.makeApiRequest, h]
  · simp [TradingAPI.getAccount, TradingAPI.makeApiRequest, h]
  · simp [TradingAPI.getPositions, TradingAPI.makeApiRequest, h]
  · simp [TradingAPI.getOrders, TradingAPI.makeApiRequest, h]
  · simp [CryptoAPI.makeApiRequest, h]
  · simp [CryptoAPI.placeOrder, CryptoAPI.makeApiRequest, h]
  · simp [CryptoAPI.getAccount, CryptoAPI.makeApiRequest, h]
  · simp [CryptoAPI.getPositions, CryptoAPI.makeApiRequest, h]

/-- C5 witness: a concrete 404 response is non-2xx and the broker
adapter's request fails with exactly that status and body text after one
request. -/
theorem C5_witness :
    resp404.respOk = false ∧
    TradingAPI.makeApiRequest { TradingAPI.freshState with config := some alpacaCfg }
        resp404 =
      (Except.error (ApiError.requestFailed 404 "not found"), 1) :=
  ⟨by decide,
   (C5_non2xx_error_propagated_unretried resp404 TradingAPI.freshState alpacaCfg
      CryptoAPI.freshState bybitCfg (by decide)).1⟩

/-- C6: every venue normalizer returns `null` exactly when the payload
fails that venue's data-frame guard (so a subscription acknowledgment or
any other non-data frame yields `null`), and the message handler then
performs zero callback invocations; the handlers are total functions of
the payload, so no error is raised and the streaming connection is never
crashed by a non-data frame. -/
theorem C6_nondata_frames_dispatch_nothing :
    (∀ (dateMs : String → Rat) (data : Json) (st : TradingAPI.State)
       (cfg : TradingAPI.BrokerConfig),
       TradingAPI.parseForVenue dateMs cfg.name data = none →
       TradingAPI.handleMarketDataMessage dateMs data
         { st with config := some cfg } = []) ∧
    (∀ (now : Rat) (data : Json) (st : CryptoAPI.State)
       (cfg : CryptoAPI.CryptoExchangeConfig),
       CryptoAPI.parseForVenue now cfg.name data = none →
       CryptoAPI.handleMarketDataMessage now data
         { st with config := some cfg } = []) ∧
    (∀ (dateMs : String → Rat) (data : Json),
       TradingAPI.parseAlpacaData dateMs data = none ↔
         ¬ data.getStr? "T" = some "t") ∧
    (∀ data : Json,
       TradingAPI.parsePolygonData data = none ↔
         ¬ data.getStr? "ev" = some "T") ∧
    (∀ data : Json,
       TradingAPI.parseFinnhubData data = none ↔
         ¬ data.getStr? "type" = some "trade") ∧
    (∀ data : Json,
       CryptoAPI.parseBybitData data = none ↔
         ¬ ∃ topic, data.getStr? "topic" = some topic ∧
             topic ≠ "" ∧ topic.startsWith "tickers." = true ∧
             Json.otruthy (data.get? "data") = true) ∧
    (∀ data : Json,
       CryptoAPI.parseKuCoinData data = none ↔
         ¬ (data.getStr? "type" = some "message" ∧
            data.getStr? "topic" = some "/market/ticker:all" ∧
            Json.otruthy (data.get? "data") = true)) ∧
    (∀ (now : Rat) (data : Json),
       CryptoAPI.parseKrakenData now data = none ↔
         ¬ ∃ elems, data = Json.arr elems ∧
             Json.otruthy elems[1]? = true ∧
             elems[2]? = some (Json.str "ticker")) ∧
    (∀ data : Json,
       CryptoAPI.parseCryptoComData data = none ↔
         ¬ (data.getStr? "method" = some "subscribe" ∧
            Json.otruthy (data.get? "result") = true ∧
            Json.otruthy (oget? (data.get? "result") "data") = true)) ∧
    (∀ data : Json,
       CryptoAPI.parseCoinExData 0 data = none ↔
         ¬ (data.getStr? "method" = some "state.update" ∧
            Json.otruthy (data.get? "params") = true)) ∧
    (∀ data : Json,
       CryptoAPI.parseBitgetData data = none ↔
         ¬ (data.getStr? "action" = some "snapshot" ∧
            Json.otruthy (data.get? "arg") = true ∧
            Json.otruthy (data.get? "data") = true)) := by
  refine ⟨?_, ?_, ?_, ?_, ?_, ?_, ?_, ?_, ?_, ?_, ?_⟩
  · intro dateMs data st cfg h
    simp only [TradingAPI.handleMarketDataMessage]
    simp [h]
  · intro now data st cfg h
    simp only [CryptoAPI.handleMarketDataMessage]
    simp [h]
  · intro dateMs data
    unfold TradingAPI.parseAlpacaData
    split <;> simp_all
  · intro data
    unfold TradingAPI.parsePolygonData
    split <;> simp_all
  · intro data
    unfold TradingAPI.parseFinnhubData
    split <;> simp_all
  · intro data
    unfold CryptoAPI.parseBybitData
    rcases h : data.getStr? "topic" with _ | topic
    · simp [h]
    · simp only [h]
      split <;> simp_all
  · intro data
    unfold CryptoAPI.parseKuCoinData
    split <;> simp_all
  · intro now data
    unfold CryptoAPI.parseKrakenData
    rcases data with _ | b | q | s | elems | fields <;> try simp
    split <;> simp_all
  · intro data
    unfold CryptoAPI.parseCryptoComData
    split <;> simp_all
  · intro data
    unfold CryptoAPI.parseCoinExData
    split <;> simp_all
  · intro data
    unfold CryptoAPI.parseBitgetData
    split <;> simp_all

/-- A concrete subscription-acknowledgment frame (not a data frame). -/
def ackFrame : Json :=
  Json.obj [("T", Json.str "subscription"), ("msg", Json.str "authenticated")]

/-- C6 witness: the concrete acknowledgment frame normalizes to `null`
for the alpaca venue and the handler dispatches to zero callbacks even
with two registered listeners. -/
theorem C6_witness :
    TradingAPI.parseForVenue (fun _ => 0) alpacaCfg.name ackFrame = none ∧
    TradingAPI.handleMarketDataMessage (fun _ => 0) ackFrame
      { { TradingAPI.freshState with marketDataCallbacks := [1, 2] } with
        config := some alpacaCfg } = [] :=
  ⟨rfl,
   C6_nondata_frames_dispatch_nothing.1 (fun _ => 0) ackFrame
     { TradingAPI.freshState with marketDataCallbacks := [1, 2] } alpacaCfg rfl⟩

/-- C7: for every configured venue name, the auth header key set is
exactly the fixed per-venue set, independent of all credential values:
alpaca `APCA-API-KEY-ID`/`APCA-API-SECRET-KEY`, polygon a single
`Authorization` bearer token, finnhub `X-Finnhub-Token`, and the
documented fixed sets for each crypto exchange — never a superset or
subset. -/
theorem C7_auth_header_keys_exact :
    (∀ c : TradingAPI.BrokerConfig,
       (TradingAPI.getAuthHeadersOf { c with name := "alpaca" }).map
           (fun hs => hs.map Prod.fst) =
         Except.ok ["APCA-API-KEY-ID", "APCA-API-SECRET-KEY"]) ∧
    (∀ c : TradingAPI.BrokerConfig,
       (TradingAPI.getAuthHeadersOf { c with name := "polygon" }).map
           (fun hs => hs.map Prod.fst) =
         Except.ok ["Authorization"]) ∧
    (∀ c : TradingAPI.BrokerConfig,
       (TradingAPI.getAuthHeadersOf { c with name := "finnhub" }).map
           (fun hs => hs.map Prod.fst) =
         Except.ok ["X-Finnhub-Token"]) ∧
    (∀ (c : CryptoAPI.CryptoExchangeConfig) (ts : String),
       (CryptoAPI.getAuthHeadersOf { c with name := "bybit" } ts).map
           (fun hs => hs.map Prod.fst) =
         Except.ok ["X-BAPI-API-KEY", "X-BAPI-TIMESTAMP", "X-BAPI-RECV-WINDOW"]) ∧
    (∀ (c : CryptoAPI.CryptoExchangeConfig) (ts : String),
       (CryptoAPI.getAuthHeadersOf { c with name := "kucoin" } ts).map
           (fun hs => hs.map Prod.fst) =
         Except.ok ["KC-API-KEY", "KC-API-TIMESTAMP", "KC-API-PASSPHRASE"]) ∧
    (∀ (c : CryptoAPI.CryptoExchangeConfig) (ts : String),
       (CryptoAPI.getAuthHeadersOf { c with name := "kraken" } ts).map
           (fun hs => hs.map Prod.fst) =
         Except.ok ["API-Key"]) ∧
    (∀ (c : CryptoAPI.CryptoExchangeConfig) (ts : String),
       (CryptoAPI.getAuthHeadersOf { c with name := "crypto_com" } ts).map
           (fun hs => hs.map Prod.fst) =
         Except.ok ["X-CRO-API-KEY"]) ∧
    (∀ (c : CryptoAPI.CryptoExchangeConfig) (ts : String),
       (CryptoAPI.getAuthHeadersOf { c with name := "coinex" } ts).map
           (fun hs => hs.map Prod.fst) =
         Except.ok ["AccessId", "Tonce"]) ∧
    (∀ (c : CryptoAPI.CryptoExchangeConfig) (ts : String),
       (CryptoAPI.getAuthHeadersOf { c with name := "bitget" } ts).map
           (fun hs => hs.map Prod.fst) =
         Except.ok ["ACCESS-KEY", "ACCESS-TIMESTAMP"]) :=
  ⟨fun _ => rfl, fun _ => rfl, fun _ => rfl, fun _ _ => rfl, fun _ _ => rfl,
   fun _ _ => rfl, fun _ _ => rfl, fun _ _ => rfl, fun _ _ => rfl⟩

/-- A concrete Rithmic configuration with the Chicago gateway. -/
def rithCfgChicago : RithmicAPI.RithmicConfig :=
  { username := "u", password := "p", systemName := "Rithmic Test",
    appName := "app", appVersion := "1.0", environment := RithmicAPI.Env.test,
    gateway := "Chicago" }

/-- The same Rithmic configuration except for the gateway field. -/
def rithCfgEurope : RithmicAPI.RithmicConfig :=
  { rithCfgChicago with gateway := "Europe" }

/-- C8 counterexample: the claim says every adapter's WebSocket URL is a
function of (venue name, sandbox/testnet flag) alone, whatever the other
fields including the gateway. For the Rithmic adapter two configurations
with the same environment but different `gateway` fields produce
different URLs, since `getWebSocketUrl` appends `config.gateway`. -/
theorem C8_counterexample_rithmic_gateway_dependence :
    rithCfgChicago.environment = rithCfgEurope.environment ∧
    decide (RithmicAPI.getWebSocketUrlOf rithCfgChicago =
              RithmicAPI.getWebSocketUrlOf rithCfgEurope)
      = false := by
  exact ⟨rfl, by decide⟩

/-- C8 (amended): the broker adapter's WebSocket URL is a pure function
of (venue name, sandbox flag) and the crypto adapter's of (venue name,
testnet flag) — any two configurations agreeing on those two fields
yield the same URL or the same unsupported-venue error; the Rithmic
adapter's URL instead is a pure function of the `gateway` field alone
(the environment flag is ignored: both of its branches produce the same
base URL). -/
theorem C8_ws_url_dependencies_amended :
    (∀ c1 c2 : TradingAPI.BrokerConfig,
       c1.name = c2.name → c1.sandbox = c2.sandbox →
       TradingAPI.getWebSocketUrlOf c1 = TradingAPI.getWebSocketUrlOf c2) ∧
    (∀ c1 c2 : CryptoAPI.CryptoExchangeConfig,
       c1.name = c2.name → c1.testnet = c2.testnet →
       CryptoAPI.getWebSocketUrlOf c1 = CryptoAPI.getWebSocketUrlOf c2) ∧
    (∀ c1 c2 : RithmicAPI.RithmicConfig,
       c1.gateway = c2.gateway →
       RithmicAPI.getWebSocketUrlOf c1 = RithmicAPI.getWebSocketUrlOf c2) := by
  refine ⟨?_, ?_, ?_⟩
  · intro c1 c2 hn hs
    simp only [TradingAPI.getWebSocketUrlOf, hn, hs]
  · intro c1 c2 hn ht
    simp only [CryptoAPI.getWebSocketUrlOf, hn, ht]
  · intro c1 c2 hg
    unfold RithmicAPI.getWebSocketUrlOf
    cases c1.environment <;> cases c2.environment <;> simp [hg]

/-- C8 witness: two alpaca configurations differing only in credentials
and base URL agree on name and sandbox flag and receive the same
streaming URL; two Rithmic configurations differing in every credential
field but sharing a gateway receive the same URL. -/
theorem C8_witness :
    (alpacaCfg.name = { alpacaCfg with apiKey := "other" }.name ∧
     alpacaCfg.sandbox = { alpacaCfg with apiKey := "other" }.sandbox ∧
     TradingAPI.getWebSocketUrlOf alpacaCfg =
       TradingAPI.getWebSocketUrlOf { alpacaCfg with apiKey := "other" }) ∧
    (rithCfgChicago.gateway = { rithCfgChicago with username := "v" }.gateway ∧
     RithmicAPI.getWebSocketUrlOf rithCfgChicago =
       RithmicAPI.getWebSocketUrlOf { rithCfgChicago with username := "v" }) :=
  ⟨⟨rfl, rfl,
    C8_ws_url_dependencies_amended.1 alpacaCfg { alpacaCfg with apiKey := "other" } rfl rfl⟩,
   ⟨rfl,
    C8_ws_url_dependencies_amended.2.2 rithCfgChicago { rithCfgChicago with username := "v" } rfl⟩⟩

/-- Counting a fixed-second-component pair in a paired-up list counts the
first component. -/
theorem count_pair_map {α β : Type} [DecidableEq α] [DecidableEq β]
    (l : List α) (t : β) (cb : α) :
    (l.map (fun c => (c, t))).count (cb, t) = l.count cb := by
  induction l with
  | nil => rfl
  | cons a as ih =>
    by_cases hac : a = cb
    · subst hac
      simp [List.count_cons, ih]
    · simp [List.count_cons, ih, hac]

/-- C9: registering callbacks through `onMarketData` appends them in
call order, and a message whose normalization yields a tick is dispatched
to exactly the registered market-data callbacks, in registration order,
pairing every callback with that tick: the invocation list projects back
to the callback list (so none is skipped or reordered) and each callback
id is invoked exactly as many times as it was registered — exactly once
when registered once. -/
theorem C9_fanout_in_registration_order :
    (∀ (ids : List Nat) (st : TradingAPI.State),
       (ids.foldl (fun s cb => TradingAPI.onMarketData cb s) st).marketDataCallbacks =
         st.marketDataCallbacks ++ ids) ∧
    (∀ (dateMs : String → Rat) (data : Json) (st : TradingAPI.State)
       (cfg : TradingAPI.BrokerConfig) (tick : TradingAPI.MarketDataTick),
       TradingAPI.parseForVenue dateMs cfg.name data = some tick →
       TradingAPI.handleMarketDataMessage dateMs data { st with config := some cfg } =
           st.marketDataCallbacks.map (fun cb => (cb, tick)) ∧
         (TradingAPI.handleMarketDataMessage dateMs data
             { st with config := some cfg }).map Prod.fst =
           st.marketDataCallbacks ∧
         ∀ cb : Nat,
           (TradingAPI.handleMarketDataMessage dateMs data
               { st with config := some cfg }).count (cb, tick) =
             st.marketDataCallbacks.count cb) ∧
    (∀ (now : Rat) (data : Json) (st : CryptoAPI.State)
       (cfg : CryptoAPI.CryptoExchangeConfig) (tick : CryptoAPI.CryptoMarketData),
       CryptoAPI.parseForVenue now cfg.name data = some tick →
       CryptoAPI.handleMarketDataMessage now data { st with config := some cfg } =
         st.marketDataCallbacks.map (fun cb => (cb, tick))) := by
  refine ⟨?_, ?_, ?_⟩
  · intro ids
    induction ids with
    | nil => intro st; simp
    | cons i is ih =>
      intro st
      rw [List.foldl_cons, ih]
      simp [TradingAPI.onMarketData]
  · intro dateMs data st cfg tick h
    have hd : TradingAPI.handleMarketDataMessage dateMs data
        { st with config := some cfg } =
        st.marketDataCallbacks.map (fun cb => (cb, tick)) := by
      simp only [TradingAPI.handleMarketDataMessage]
      simp [h]
    refine ⟨hd, ?_, ?_⟩
    · rw [hd]
      simp only [List.map_map]
      exact List.map_id st.marketDataCallbacks
    · intro cb
      rw [hd]
      exact count_pair_map st.marketDataCallbacks tick cb
  · intro now data st cfg tick h
    simp only [CryptoAPI.handleMarketDataMessage]
    simp [h]

/-- The concrete alpaca trade frame used in the C9 witness. -/
def tradeFrame : Json :=
  Json.obj [("T", Json.str "t"), ("S", Json.str "AAPL"), ("p", Json.num 100),
            ("s", Json.num 5), ("t", Json.str "2024-01-02T15:04:05Z")]

/-- The tick the alpaca normalizer produces for `tradeFrame` under the
date parser that maps every string to 0. -/
def tradeTick : TradingAPI.MarketDataTick :=
  { symbol := some "AAPL", price := some 100, bid := some (100 - 1/100),
    ask := some (100 + 1/100), volume := some 5, timestamp := some 0,
    change := 0, changePercent := 0 }

/-- C9 witness: with callbacks [1, 2] registered, delivering the concrete
trade frame invokes callback 1 then callback 2, each exactly once with
the normalized tick. -/
theorem C9_witness :
    TradingAPI.parseForVenue (fun _ => 0) alpacaCfg.name tradeFrame = some tradeTick ∧
    TradingAPI.handleMarketDataMessage (fun _ => 0) tradeFrame
      { { TradingAPI.freshState with marketDataCallbacks := [1, 2] } with
        config := some alpacaCfg } = [(1, tradeTick), (2, tradeTick)] :=
  ⟨rfl,
   ((C9_fanout_in_registration_order.2.1 (fun _ => 0) tradeFrame
      { TradingAPI.freshState with marketDataCallbacks := [1, 2] } alpacaCfg
      tradeTick rfl).1).trans rfl⟩

/-- C10: in the connected state the Rithmic `placeOrder` always resolves
with an order id that is just the current time rendered as a decimal
string — `placeOrder` has no venue-response input at all, so the result
cannot be derived from any acknowledgment — and the order frame is
handed to the socket only when one exists and its readyState is OPEN;
otherwise the frame is silently dropped while the call still resolves
with the locally generated order id. When not connected the call fails
without sending anything. -/
theorem C10_rithmic_place_order_local_id :
    (∀ (st : RithmicAPI.State) (order : RithmicAPI.RithmicOrderRequest) (now : Nat),
       (RithmicAPI.placeOrder order now { st with connected := true }).2 =
         Except.ok (Nat.repr now)) ∧
    (∀ (st : RithmicAPI.State) (order : RithmicAPI.RithmicOrderRequest)
       (now : Nat) (w : Socket),
       (RithmicAPI.placeOrder order now
          { st with connected := true, websocket := some w }).1 =
         (if w.readyState = SockState.open
          then [RithmicAPI.orderMessageOf order] else [])) ∧
    (∀ (st : RithmicAPI.State) (order : RithmicAPI.RithmicOrderRequest) (now : Nat),
       (RithmicAPI.placeOrder order now
          { st with connected := true, websocket := none }).1 = []) ∧
    (∀ (st : RithmicAPI.State) (order : RithmicAPI.RithmicOrderRequest) (now : Nat),
       RithmicAPI.placeOrder order now { st with connected := false } =
         ([], Except.error (ApiError.notConnected "Not connected to Rithmic"))) :=
  ⟨fun _ _ _ => rfl, fun _ _ _ _ => rfl, fun _ _ _ => rfl, fun _ _ _ => rfl⟩
